import Mathlib

/-!
Shallow embedding of the guest-messaging cadence engine of
matthewbloch/text-guests.

Instants are modelled as `Int` unix seconds. Go `time.Time` comparisons
(`After`, `Before`, `Sub` compared against day-multiples) are order and
difference comparisons on these integers; the zero `time.Time` value
(January 1, year 1, 00:00:00 UTC) is the constant `zeroTimeUnix`.
-/

namespace TextGuests

/-- One day, in seconds (`time.Hour*24` in the Go source). -/
def day : Int := 86400

/-- Unix-seconds value of Go's zero `time.Time` (0001-01-01 00:00:00 UTC). -/
def zeroTimeUnix : Int := -62135596800

/-- Largest value of Go's 64-bit `int`, the range limit of `strconv.Atoi`. -/
def int64Max : Int := 9223372036854775807

/-- Accumulate a decimal digit string; `none` on any non-digit character. -/
def digitsVal : List Char → Nat → Option Nat
  | [], acc => some acc
  | c :: cs, acc =>
    if c.isDigit then digitsVal cs (acc * 10 + (c.toNat - 48)) else none

/-- Value of a non-empty all-digit character list; `none` otherwise. -/
def digitsToNat : List Char → Option Nat
  | [] => none
  | cs => digitsVal cs 0

/-- Go `strconv.Atoi`: optional sign, then decimal digits, within the 64-bit
`int` range; any other input (empty string, stray characters, out-of-range
value) yields an error, modelled as `none`. -/
def atoi (s : String) : Option Int :=
  match s.data with
  | '+' :: rest =>
    (digitsToNat rest).bind fun n =>
      if (n : Int) ≤ int64Max then some (n : Int) else none
  | '-' :: rest =>
    (digitsToNat rest).bind fun n =>
      if (n : Int) ≤ int64Max + 1 then some (-(n : Int)) else none
  | cs =>
    (digitsToNat cs).bind fun n =>
      if (n : Int) ≤ int64Max then some (n : Int) else none

/-- Helper for `splitComma`: accumulates the current part (reversed). -/
def splitOnCommaAux : List Char → List Char → List String
  | [], acc => [String.mk acc.reverse]
  | c :: cs, acc =>
    if c = ',' then String.mk acc.reverse :: splitOnCommaAux cs []
    else splitOnCommaAux cs (c :: acc)

/-- Go `strings.Split(s, ",")`: always returns at least one part; adjacent
commas produce empty parts. -/
def splitComma (s : String) : List String := splitOnCommaAux s.data []

/-- Decoding of the comma-separated parts of the persisted cadence-state
string (part_000 lines 235-244): with at least two parts, `lastTemplate`
is `parts[0]`, and `lastSent` is `time.Unix(Atoi(parts[1]))` when the
integer parses and otherwise stays the zero time (the template tag is kept
even when the timestamp fails to parse); with fewer than two parts both
variables keep their zero values. -/
def decodeParts : List String → String × Int
  | t :: ts :: _ =>
    match atoi ts with
    | some n => (t, n)
    | none => (t, zeroTimeUnix)
  | _ => ("", zeroTimeUnix)

/-- Decoding of the persisted cadence state (part_000 lines 232-245).
`none` models `CustomFieldValue` returning `ok = false` (field absent);
then both `lastTemplate` and `lastSent` keep their zero values. -/
def decodeState : Option String → String × Int
  | none => ("", zeroTimeUnix)
  | some raw => decodeParts (splitComma raw)

/-- The `switch lastTemplate` of part_000 lines 247-267: the pre-override
template choice given `now`, the last stay's departure, `lastSent` and
`lastTemplate`. An unmatched tag leaves `template` at its zero value `""`. -/
def chooseTemplate (now dep lastSent : Int) (lastTemplate : String) : String :=
  if lastTemplate = "" then
    if now - dep < 30 * day then "RECENT" else "OLD"
  else if lastTemplate = "OLD" then
    if lastSent < dep then "RECENT" else ""
  else if lastTemplate = "RECENT" then
    if 180 * day < dep - lastSent then "RECENT" else ""
  else ""

/-- The direct-channel override (part_000 lines 269-272): a non-empty choice
for a stay booked on the "uplisting" channel becomes `DIRECT`. -/
def applyChannelOverride (template : String) (channel : String) : String :=
  if template ≠ "" ∧ channel = "uplisting" then "DIRECT" else template

/-- The whole per-guest decision (part_000 lines 221-272): guests whose last
stay departs after `now` are skipped outright (no template), otherwise the
persisted state is decoded, the switch run, and the channel override
applied. -/
def cadenceDecision (now dep : Int) (channel : String)
    (stateRaw : Option String) : String :=
  if now < dep then ""
  else
    let st := decodeState stateRaw
    applyChannelOverride (chooseTemplate now dep st.2 st.1) channel

/-- Leap-year rule of the proleptic Gregorian calendar (as in Go's `time`). -/
def isLeap (y : Int) : Bool := y % 4 = 0 && (y % 100 ≠ 0 || y % 400 = 0)

/-- Number of days in month `m` of year `y`. -/
def daysInMonth (y m : Int) : Int :=
  if m = 2 then (if isLeap y then 29 else 28)
  else if m = 4 ∨ m = 6 ∨ m = 9 ∨ m = 11 then 30
  else 31

/-- Days from the unix epoch to the civil date `y-m-d` (negative before
1970). Standard era/year-of-era computation; for the years this file feeds
in (0..9999) the shifted numerator keeps every division non-negative or at
exactly -400/400, where truncating and flooring division agree. -/
def daysFromCivil (y m d : Int) : Int :=
  let ys := if m ≤ 2 then y - 1 else y
  let era := (if 0 ≤ ys then ys else ys - 399) / 400
  let yoe := ys - era * 400
  let doy := (153 * (if 2 < m then m - 3 else m + 9) + 2) / 5 + d - 1
  let doe := yoe * 365 + yoe / 4 - yoe / 100 + doy
  era * 146097 + doe - 719468

/-- Unix seconds of the civil instant `y-m-d h:mi:s` (UTC). -/
def toUnix (y mo d h mi s : Int) : Int :=
  daysFromCivil y mo d * 86400 + h * 3600 + mi * 60 + s

/-- Numeric value of a decimal digit character. -/
def digit (c : Char) : Int := (c.toNat : Int) - 48

/-- Go `time.Parse("2006-01-02 15:04:05", s)`: exactly 4-digit year, 2-digit
month/day/hour/minute/second with the literal separators, month in 1..12,
day within the month's length, hour 0..23, minute and second 0..59; any
other input is a parse error, modelled as `none`. -/
def parseDateTime (str : String) : Option Int :=
  match str.data with
  | [y1, y2, y3, y4, '-', m1, m2, '-', d1, d2, ' ',
     h1, h2, ':', n1, n2, ':', s1, s2] =>
    if y1.isDigit ∧ y2.isDigit ∧ y3.isDigit ∧ y4.isDigit ∧
       m1.isDigit ∧ m2.isDigit ∧ d1.isDigit ∧ d2.isDigit ∧
       h1.isDigit ∧ h2.isDigit ∧ n1.isDigit ∧ n2.isDigit ∧
       s1.isDigit ∧ s2.isDigit then
      let y := digit y1 * 1000 + digit y2 * 100 + digit y3 * 10 + digit y4
      let mo := digit m1 * 10 + digit m2
      let d := digit d1 * 10 + digit d2
      let h := digit h1 * 10 + digit h2
      let mi := digit n1 * 10 + digit n2
      let s := digit s1 * 10 + digit s2
      if 1 ≤ mo ∧ mo ≤ 12 ∧ 1 ≤ d ∧ d ≤ daysInMonth y mo ∧
         h ≤ 23 ∧ mi ≤ 59 ∧ s ≤ 59 then
        some (toUnix y mo d h mi s)
      else none
    else none
  | _ => none

/-- The fields of `uplisting.Booking` this development uses. -/
structure Booking where
  guestName : String
  guestPhone : String
  guestEmail : String
  status : String
  channel : String
  checkOut : String
  departureTime : String
deriving DecidableEq

/-- `Booking.DepartureAt` (uplisting/client.go lines 119-122): parses
`CheckOut + " " + DepartureTime`; the parse error is discarded, so a failed
parse yields the zero `time.Time`. -/
def departureAt (b : Booking) : Int :=
  match parseDateTime (b.checkOut ++ " " ++ b.departureTime) with
  | some t => t
  | none => zeroTimeUnix

/-- Lookup in the per-run guest map, modelled as an association list keyed
by (already normalized) guest phone, in first-insertion order. -/
def mapFind : List (String × Booking) → String → Option Booking
  | [], _ => none
  | (k, v) :: rest, p => if k = p then some v else mapFind rest p

/-- One iteration of the booking loop's guest-map update (part_000 lines
163-208, specifically 200-207) for a booking whose contact resolution
succeeded. Cancelled bookings are skipped. When the phone is already in the
map, the Go source copies the map value into the local variable `pair`,
compares departures, and assigns `pair.lastStay = booking` — but the copy
is never stored back into `state.contacts`, so the map entry is unchanged
on both sides of that comparison. When the phone is new, the booking is
inserted. -/
def aggStep (m : List (String × Booking)) (b : Booking) :
    List (String × Booking) :=
  if b.status = "cancelled" then m
  else
    match mapFind m b.guestPhone with
    | some _ => m
    | none => m ++ [(b.guestPhone, b)]

/-- The guest map built by folding every (contact-resolved) booking, in
arrival order, through `aggStep`. -/
def aggregate (bs : List Booking) : List (String × Booking) :=
  bs.foldl aggStep []

/-- The fields of `textmagic.Contact` set by `bookingToNewContact`. -/
structure Contact where
  phone : String
  firstName : String
  lastName : String
  email : String
  listIds : List Int
deriving DecidableEq

/-- Split a character list at its first space: `none` when there is no
space, otherwise the characters before it and the characters after it. -/
def firstSpaceSplit : List Char → Option (List Char × List Char)
  | [] => none
  | c :: cs =>
    if c = ' ' then some ([], cs)
    else
      match firstSpaceSplit cs with
      | none => none
      | some (p, q) => some (c :: p, q)

/-- Go `strings.SplitAfterN(s, " ", 2)`: at most two substrings, split
after the first space (the separator stays at the end of the first part);
a string without a space yields the one-element slice `[s]`. -/
def splitAfterN2Space (s : String) : List String :=
  match firstSpaceSplit s.data with
  | none => [s]
  | some (p, q) => [String.mk (p ++ [' ']), String.mk q]

/-- `state.bookingToNewContact` (part_000 lines 85-94): `names[0]` becomes
the first name and `names[1]` the last name. When the guest name has no
space the slice has one element and the `names[1]` access panics (index out
of range); the panic is modelled as `none`. -/
def bookingToNewContact (listId : Int) (b : Booking) : Option Contact :=
  match splitAfterN2Space b.guestName with
  | [n0, n1] =>
    some { phone := b.guestPhone, firstName := n0, lastName := n1,
           email := b.guestEmail, listIds := [listId] }
  | _ => none

/-- Spec-side definition for the C7 comparison: the guest name's first
whitespace-separated token, i.e. the characters strictly before the first
space (the whole name when there is no space). -/
def firstTokenSpec (s : String) : String :=
  match firstSpaceSplit s.data with
  | none => s
  | some (p, _) => String.mk p

/-- Spec-side definition for the C7 comparison: the remainder of the guest
name after the first whitespace boundary. -/
def remainderSpec (s : String) : String :=
  match firstSpaceSplit s.data with
  | none => ""
  | some (_, q) => String.mk q

/-- Abstract outcome of one guest's turn in the send loop: the decision
inputs plus oracles for the two remote calls (`SendMessageToContacts` and
`SetCustomFieldValue`). -/
structure GuestRun where
  dep : Int
  channel : String
  stateRaw : Option String
  sendOk : Bool
  persistOk : Bool

/-- The value stored back to the custom field (part_000 line 275):
`template + "," + strconv.Itoa(int(now.Unix()))`. -/
def newStateRaw (now : Int) (template : String) : String :=
  template ++ "," ++ toString now

/-- One guest's turn in the send loop (part_000 lines 217-309): result is
the guest's persisted state after the turn, and whether the run aborts
(`os.Exit(1)`). A `""` decision skips the guest; a failed send logs and
continues with the state untouched; a successful send followed by a failed
`SetCustomFieldValue` exits the process (state untouched); a successful
send and persist stores `newStateRaw`. -/
def guestStep (now : Int) (g : GuestRun) : Option String × Bool :=
  let template := cadenceDecision now g.dep g.channel g.stateRaw
  if template = "" then (g.stateRaw, false)
  else if g.sendOk then
    if g.persistOk then (some (newStateRaw now template), false)
    else (g.stateRaw, true)
  else (g.stateRaw, false)

/-- The send loop over the per-run guests: the list of each processed
guest's resulting persisted state, and whether the run exited non-zero.
A fatal `guestStep` stops the loop; later guests are not processed. -/
def runPass2 (now : Int) : List GuestRun → List (Option String) × Bool
  | [] => ([], false)
  | g :: gs =>
    match guestStep now g with
    | (st, true) => ([st], true)
    | (st, false) => (st :: (runPass2 now gs).1, (runPass2 now gs).2)

/-- Concrete booking: first stay of the duplicated guest (C2). -/
def b1 : Booking :=
  { guestName := "Ann Archer", guestPhone := "+447700900111",
    guestEmail := "ann@example.com", status := "confirmed",
    channel := "airbnb", checkOut := "2023-01-01",
    departureTime := "11:00:00" }

/-- Concrete booking: later stay of the same guest, departing later (C2). -/
def b2 : Booking := { b1 with checkOut := "2023-06-01" }

/-- Concrete booking with a two-part guest name (C7). -/
def b3 : Booking :=
  { guestName := "John Smith", guestPhone := "+447700900222",
    guestEmail := "john@example.com", status := "confirmed",
    channel := "uplisting", checkOut := "2023-01-01",
    departureTime := "11:00:00" }

/-- Concrete booking with a space-free guest name (C9). -/
def b4 : Booking := { b3 with guestName := "Madonna" }

/-- Concrete booking whose departure strings do not parse (C10). -/
def b5 : Booking := { b3 with checkOut := "bogus" }

/-- Concrete guest whose send call fails (C8). -/
def gSendFail : GuestRun :=
  { dep := 0, channel := "airbnb", stateRaw := none,
    sendOk := false, persistOk := true }

/-- Concrete guest whose send succeeds but whose state write fails (C8). -/
def gPersistFail : GuestRun :=
  { dep := 0, channel := "airbnb", stateRaw := none,
    sendOk := true, persistOk := false }

/-- C3: for every guest whose last stay's departure timestamp is after
`now`, the chosen template is none (`""`), for every channel and every
value of the persisted cadence state. -/
theorem c3_future_departure_none (now dep : Int) (channel : String)
    (stateRaw : Option String) (h : now < dep) :
    cadenceDecision now dep channel stateRaw = "" := by
  simp [cadenceDecision, h]

/-- Witness for C3 at a concrete input. -/
theorem c3_future_departure_none_witness :
    cadenceDecision 0 1 "airbnb" (some "RECENT,0") = "" :=
  c3_future_departure_none 0 1 "airbnb" (some "RECENT,0") (by decide)

/-- C4: for a guest never messaged (`previousTemplate = ""`) whose last
stay departed at or before `now`, the pre-override choice is `RECENT` when
`now - departure` is strictly less than 30 days and `OLD` otherwise. -/
theorem c4_never_messaged (now dep lastSent : Int) (h : dep ≤ now) :
    (now - dep < 30 * day → chooseTemplate now dep lastSent "" = "RECENT") ∧
    (¬ now - dep < 30 * day → chooseTemplate now dep lastSent "" = "OLD") := by
  constructor <;> intro hlt <;> simp [chooseTemplate, hlt]

/-- Witness for C4 at concrete inputs, one per branch. -/
theorem c4_never_messaged_witness :
    chooseTemplate (10 * day) 0 0 "" = "RECENT" ∧
    chooseTemplate (40 * day) 0 0 "" = "OLD" :=
  ⟨(c4_never_messaged (10 * day) 0 0 (by decide)).1 (by decide),
   (c4_never_messaged (40 * day) 0 0 (by decide)).2 (by decide)⟩

/-- C5: for a guest last sent the `RECENT` template whose last stay
departed at or before `now`, the pre-override choice is `RECENT` again when
`departure - previousSentAt` is strictly greater than 180 days and none
(`""`) otherwise. -/
theorem c5_recent_rebooking (now dep lastSent : Int) (h : dep ≤ now) :
    (180 * day < dep - lastSent →
      chooseTemplate now dep lastSent "RECENT" = "RECENT") ∧
    (¬ 180 * day < dep - lastSent →
      chooseTemplate now dep lastSent "RECENT" = "") := by
  constructor <;> intro hlt <;> simp [chooseTemplate, hlt]

/-- Witness for C5 at concrete inputs, one per branch. -/
theorem c5_recent_rebooking_witness :
    chooseTemplate (200 * day) (200 * day) 0 "RECENT" = "RECENT" ∧
    chooseTemplate (50 * day) (50 * day) 0 "RECENT" = "" :=
  ⟨(c5_recent_rebooking (200 * day) (200 * day) 0 (by decide)).1 (by decide),
   (c5_recent_rebooking (50 * day) (50 * day) 0 (by decide)).2 (by decide)⟩

/-- C6: the direct-channel override maps a none decision to none for every
channel, and a non-none decision on an "uplisting" (direct) stay to
`DIRECT`; it never turns a none decision into a send. -/
theorem c6_direct_override (t c : String) :
    (t = "" → applyChannelOverride t c = "") ∧
    (t ≠ "" → c = "uplisting" → applyChannelOverride t c = "DIRECT") := by
  constructor
  · intro h; subst h; simp [applyChannelOverride]
  · intro h1 h2; simp [applyChannelOverride, h1, h2]

/-- Witness for C6 at concrete inputs, one per conjunct. -/
theorem c6_direct_override_witness :
    applyChannelOverride "" "uplisting" = "" ∧
    applyChannelOverride "RECENT" "uplisting" = "DIRECT" :=
  ⟨(c6_direct_override "" "uplisting").1 rfl,
   (c6_direct_override "RECENT" "uplisting").2 (by decide) rfl⟩

/-- C1 counterexample: the persisted value "FOO,50" is malformed (unknown
template tag), yet the decision is none while the never-messaged branch
decides `OLD` at the same instant — the claim that every malformed state
decides like the never-messaged branch is false. -/
theorem c1_malformed_counterexample :
    cadenceDecision (100 * day) 0 "airbnb" (some "FOO,50") = "" ∧
    cadenceDecision (100 * day) 0 "airbnb" none = "OLD" ∧
    (("" : String) == "OLD") = false := by
  refine ⟨by decide, by decide, by decide⟩

/-- C1 (amended): decoding the persisted cadence state never crashes (the
decoder and decision are total functions), and malformed states degrade as
follows: a value without a comma decides exactly like the never-messaged
state; a value whose timestamp part does not parse as an integer keeps its
first comma-separated part as the template tag with the zero time as
`previousSentAt`; an unknown template tag (anything other than `""`, `OLD`,
`RECENT`) makes the pre-override choice none rather than the
never-messaged branch. -/
theorem c1_malformed_degrades (raw tag ts : String) (rest : List String)
    (now dep lastSent : Int) (channel : String) :
    ((splitComma raw).length < 2 →
      cadenceDecision now dep channel (some raw) =
        cadenceDecision now dep channel none) ∧
    (splitComma raw = tag :: ts :: rest → atoi ts = none →
      decodeState (some raw) = (tag, zeroTimeUnix)) ∧
    (tag ≠ "" → tag ≠ "OLD" → tag ≠ "RECENT" →
      chooseTemplate now dep lastSent tag = "") := by
  refine ⟨?_, ?_, ?_⟩
  · intro hlen
    have hdec : decodeState (some raw) = decodeState none := by
      show decodeParts (splitComma raw) = ("", zeroTimeUnix)
      cases hsp : splitComma raw with
      | nil => rfl
      | cons a tail =>
        cases tail with
        | nil => rfl
        | cons b r =>
          rw [hsp] at hlen
          simp at hlen
          omega
    unfold cadenceDecision
    rw [hdec]
  · intro hsp hatoi
    show decodeParts (splitComma raw) = (tag, zeroTimeUnix)
    rw [hsp]
    simp [decodeParts, hatoi]
  · intro h1 h2 h3
    simp [chooseTemplate, h1, h2, h3]

/-- Witness for the amended C1 at concrete malformed states, one per
conjunct. -/
theorem c1_malformed_degrades_witness :
    cadenceDecision (100 * day) 0 "airbnb" (some "garbage") =
      cadenceDecision (100 * day) 0 "airbnb" none ∧
    decodeState (some "OLD,notanumber") = ("OLD", zeroTimeUnix) ∧
    chooseTemplate (100 * day) 0 0 "FOO" = "" :=
  ⟨(c1_malformed_degrades "garbage" "x" "y" [] (100 * day) 0 0 "airbnb").1
      (by decide),
   (c1_malformed_degrades "OLD,notanumber" "OLD" "notanumber" []
      (100 * day) 0 0 "airbnb").2.1 (by decide) (by decide),
   (c1_malformed_degrades "x" "FOO" "y" [] (100 * day) 0 0 "airbnb").2.2
      (by decide) (by decide) (by decide)⟩

/-- C2 (code bug): guest `b1.guestPhone` has two non-cancelled bookings,
and `b2` departs strictly later than `b1`, yet the guest map keeps `b1`,
the first booking encountered — the local-copy assignment at part_000 line
203 is never stored back, so the "latest departure" update is lost. -/
theorem c2_keeps_first_not_latest :
    (b2.status == "cancelled") = false ∧
    departureAt b1 < departureAt b2 ∧
    mapFind (aggregate [b1, b2]) b1.guestPhone = some b1 := by
  refine ⟨by decide, by decide, by decide⟩

/-- Helper: the two shapes of `splitAfterN2Space`, tied to the spec-side
first-token and remainder functions. -/
theorem splitAfterN2Space_shape (s : String) :
    splitAfterN2Space s = [s] ∨
    ∃ p q, firstSpaceSplit s.data = some (p, q) ∧
      splitAfterN2Space s = [String.mk p ++ " ", String.mk q] ∧
      firstTokenSpec s = String.mk p ∧ remainderSpec s = String.mk q := by
  unfold splitAfterN2Space firstTokenSpec remainderSpec
  cases hs : firstSpaceSplit s.data with
  | none => exact Or.inl rfl
  | some pq => exact Or.inr ⟨pq.1, pq.2, rfl, rfl, rfl, rfl⟩

/-- C7 counterexample: for guest name "John Smith" the created contact's
first name is "John " — the first token *plus the separator space* — not
the first whitespace-separated token "John". -/
theorem c7_first_name_counterexample :
    (bookingToNewContact 5 b3).map Contact.firstName = some "John " ∧
    firstTokenSpec b3.guestName = "John" ∧
    (("John " : String) == "John") = false := by
  refine ⟨by decide, by decide, by decide⟩

/-- C7 (amended): whenever contact creation succeeds (the guest name
contains a space), the contact's first name is the name's first
space-separated token *together with the trailing space separator* (the
split keeps the separator, and is on the space character only), and the
last name is the remainder after the first space. -/
theorem c7_name_split (listId : Int) (b : Booking) (c : Contact)
    (h : bookingToNewContact listId b = some c) :
    c.firstName = firstTokenSpec b.guestName ++ " " ∧
    c.lastName = remainderSpec b.guestName := by
  unfold bookingToNewContact at h
  rcases splitAfterN2Space_shape b.guestName with heq | ⟨p, q, _, heq, ht, hr⟩
  · rw [heq] at h
    exact Option.noConfusion h
  · rw [heq] at h
    injection h with h3
    subst h3
    exact ⟨by rw [ht], by rw [hr]⟩

/-- Witness for the amended C7 at a concrete booking. -/
theorem c7_name_split_witness :
    ({ phone := "+447700900222", firstName := "John ", lastName := "Smith",
       email := "john@example.com", listIds := [5] } : Contact).firstName =
      firstTokenSpec b3.guestName ++ " " ∧
    ({ phone := "+447700900222", firstName := "John ", lastName := "Smith",
       email := "john@example.com", listIds := [5] } : Contact).lastName =
      remainderSpec b3.guestName :=
  c7_name_split 5 b3
    { phone := "+447700900222", firstName := "John ", lastName := "Smith",
      email := "john@example.com", listIds := [5] } (by decide)

/-- C9: booking `b4` is not cancelled, its guest name "Madonna" contains no
space, `strings.SplitAfterN` yields a one-element slice, and the `names[1]`
access in `bookingToNewContact` is out of range — a panic, modelled as
`none` — instead of producing a contact. -/
theorem c9_spaceless_name_panics :
    (b4.status == "cancelled") = false ∧
    (splitAfterN2Space b4.guestName).length = 1 ∧
    bookingToNewContact 5 b4 = none := by
  refine ⟨by decide, by decide, by decide⟩

/-- C8: in the send loop, for a guest whose decision is a send: if the send
call fails, the guest's persisted state is unchanged and the loop continues
with the remaining guests exactly as it would have processed them alone;
if the send succeeds but persisting the new state fails, the run terminates
with a non-zero exit (`os.Exit(1)`), the guest's state unchanged and the
remaining guests unprocessed. -/
theorem c8_send_persist_failures (now : Int) (g : GuestRun)
    (gs : List GuestRun)
    (hT : cadenceDecision now g.dep g.channel g.stateRaw ≠ "") :
    (g.sendOk = false →
      runPass2 now (g :: gs) =
        (g.stateRaw :: (runPass2 now gs).1, (runPass2 now gs).2)) ∧
    (g.sendOk = true → g.persistOk = false →
      runPass2 now (g :: gs) = ([g.stateRaw], true)) := by
  constructor
  · intro hs
    have hstep : guestStep now g = (g.stateRaw, false) := by
      unfold guestStep
      simp [hT, hs]
    simp [runPass2, hstep]
  · intro hs hp
    have hstep : guestStep now g = (g.stateRaw, true) := by
      unfold guestStep
      simp [hT, hs, hp]
    simp [runPass2, hstep]

/-- Witness for C8 at concrete guests, one per failure mode. -/
theorem c8_send_persist_failures_witness :
    runPass2 (100 * day) [gSendFail] = ([gSendFail.stateRaw], false) ∧
    runPass2 (100 * day) [gPersistFail] = ([gPersistFail.stateRaw], true) :=
  ⟨(c8_send_persist_failures (100 * day) gSendFail [] (by decide)).1 rfl,
   (c8_send_persist_failures (100 * day) gPersistFail [] (by decide)).2
      rfl rfl⟩

/-- C10: for every booking whose check-out and departure-time strings do
not together parse in the layout "2006-01-02 15:04:05", `DepartureAt`
returns the zero time value; hence (for any run instant at or after the
unix epoch, as `time.Now()` always is) the booking is never suppressed by
the future-departure rule, and a never-messaged guest with this booking
falls into the over-30-days `OLD` branch. -/
theorem c10_unparseable_departure (b : Booking) (now lastSent : Int)
    (h0 : 0 ≤ now)
    (hp : parseDateTime (b.checkOut ++ " " ++ b.departureTime) = none) :
    departureAt b = zeroTimeUnix ∧
    departureAt b ≤ now ∧
    chooseTemplate now (departureAt b) lastSent "" = "OLD" := by
  have hd : departureAt b = zeroTimeUnix := by
    unfold departureAt
    rw [hp]
  refine ⟨hd, ?_, ?_⟩
  · rw [hd]
    unfold zeroTimeUnix
    omega
  · rw [hd]
    have hge : ¬ now - zeroTimeUnix < 30 * day := by
      unfold zeroTimeUnix day
      omega
    simp [chooseTemplate, hge]

/-- Witness for C10 at a concrete unparseable booking. -/
theorem c10_unparseable_departure_witness :
    departureAt b5 = zeroTimeUnix ∧
    departureAt b5 ≤ 0 ∧
    chooseTemplate 0 (departureAt b5) 0 "" = "OLD" :=
  c10_unparseable_departure b5 0 0 (by decide) (by decide)

end TextGuests
